import Mathlib

/-!
Shallow embedding of the error/exception/panic bridging layer of
`src/core/src/result.rs` (the rquickjs core error module), together with
proofs of the spec's testable properties.

Strings are modelled at the byte/char level as Lean `String` / `List Char`
(the terminator byte 0 occurs in UTF-8 only as the code point 0, so char
level is byte-faithful for terminator reasoning).  Rust `usize` is modelled
as `Nat` with `usizeMAX = 2^64 - 1` (64-bit platform).  The display of
wrapped external errors (`NulError`, `FromBytesWithNulError`, `Utf8Error`,
`IoError` — all from the Rust standard library, outside this repository) is
modelled by carrying the rendered text as the payload.
-/

/-- The terminator (null) byte as a char. -/
def nulChar : Char := Char.ofNat 0

/-- Maximum value of `usize` on a 64-bit platform (`usize::MAX`). -/
def usizeMAX : Nat := 2 ^ 64 - 1

/-- Rust `Range<usize>` (`expected` field of `NumArgs`).  Rust's field `end`
is a Lean keyword, so it is named `stop` here. -/
structure URange where
  start : Nat
  stop : Nat
deriving DecidableEq, Repr

/-- The error taxonomy of `result.rs` (`enum Error`).  Payloads of wrapped
standard-library errors are modelled by their rendered display text. -/
inductive Error where
  /-- Could not allocate memory. -/
  | Allocation
  /-- A module defined two exported values with the same name. -/
  | DuplicateExports
  /-- String with an internal null byte (payload: display of `NulError`). -/
  | InvalidString (error : String)
  /-- C string not null terminated (payload: display of `FromBytesWithNulError`). -/
  | InvalidCStr (error : String)
  /-- String from rquickjs was not UTF-8 (payload: display of `Utf8Error`). -/
  | Utf8 (error : String)
  /-- An io error (payload: display of `IoError`). -/
  | Io (error : String)
  /-- An exception raised by quickjs itself. -/
  | Exception
  /-- Error converting from javascript to a rust type. -/
  | FromJs (from_ : String) (to_ : String) (message : Option String)
  /-- Error converting to javascript from a rust type. -/
  | IntoJs (from_ : String) (to_ : String) (message : Option String)
  /-- Error matching of function arguments. -/
  | NumArgs (expected : URange) (given : Nat)
  /-- Error when resolving js module (feature `loader`). -/
  | Resolving (base : String) (name : String) (message : Option String)
  /-- Error when loading js module (feature `loader`). -/
  | Loading (name : String) (message : Option String)
  /-- Persistent restored in a runtime other than the original one. -/
  | UnrelatedRuntime
  /-- An error from quickjs from which the specifics are unknown. -/
  | Unknown
deriving DecidableEq, Repr

/-- Modelled from the spec: `crate::Type::from_str` (the `Type` enum lives
outside `src/`); it succeeds exactly on labels naming an engine-native value
kind ("Object" is recognized, host type names such as "u32" are not). -/
def TypeFromStr (s : String) : Bool :=
  (["Uninitialized", "Undefined", "Null", "Bool", "Int", "Float", "String",
    "Symbol", "Array", "Constructor", "Function", "Promise", "Exception",
    "Object", "Module", "BigInt", "Unknown"] : List String).contains s

/-- `Error::is_from_js_to_js`: a `FromJs` error whose `to` label parses as an
engine-native type. -/
def Error.is_from_js_to_js : Error → Bool
  | .FromJs _ to_ _ => TypeFromStr to_
  | _ => false

/-- `Error::is_exception`. -/
def Error.is_exception : Error → Bool
  | .Exception => true
  | _ => false

/-- Display of `usize` (decimal rendering, Rust `{}` for `usize`), modelled
by Lean's decimal `Nat.repr`. -/
def natDisplay (n : Nat) : List Char := (Nat.repr n).data

/-- The optional-message suffix logic shared by the `FromJs`, `IntoJs`,
`Resolving` and `Loading` arms of the `Display` impl: append ": <message>"
only when a message is present and non-empty. -/
def msgSuffix : Option String → List Char
  | some message => if message.isEmpty then [] else ": ".data ++ message.data
  | none => []

/-- The `Display` impl for `Error` (`impl Display for Error` in
`result.rs`), rendered to a char/byte sequence. -/
def Error.format : Error → List Char
  | .Allocation => "Allocation failed while creating object".data
  | .DuplicateExports =>
      "Tried to export two values with the same name from one module".data
  | .InvalidString error =>
      "String contained internal null bytes: ".data ++ error.data
  | .InvalidCStr error =>
      "CStr didn't end in a null byte: ".data ++ error.data
  | .Utf8 error =>
      "Conversion from string failed: ".data ++ error.data
  | .Unknown => "quickjs library created a unknown error".data
  | .Exception => "quickjs generated an exception".data
  | .FromJs from_ to_ message =>
      "Error converting from js '".data ++ from_.data ++ "' into type '".data
        ++ to_.data ++ "'".data ++ msgSuffix message
  | .IntoJs from_ to_ message =>
      "Error converting from '".data ++ from_.data ++ "' into js '".data
        ++ to_.data ++ "'".data ++ msgSuffix message
  | .NumArgs expected given =>
      "Error calling function with ".data ++ natDisplay given
        ++ " argument(s) while ".data ++ natDisplay expected.start ++ "..".data
        ++ (if expected.stop < usizeMAX then natDisplay expected.stop else [])
        ++ " expected".data
  | .Resolving base name message =>
      "Error resolving module '".data ++ name.data ++ "' from '".data
        ++ base.data ++ "'".data ++ msgSuffix message
  | .Loading name message =>
      "Error loading module '".data ++ name.data ++ "'".data ++ msgSuffix message
  | .Io error =>
      "IO Error: ".data ++ error.data
  | .UnrelatedRuntime => "Restoring Persistent in an unrelated runtime".data

/-- `Error::to_cstring`: stringify the error with a NUL at the end
(`format!("{self}\0")`), pop the last NUL, then let the C-string constructor
(`CString::from_vec_unchecked`) append its own terminator. -/
def Error.to_cstring (e : Error) : List Char :=
  let message := (e.format ++ [nulChar]).dropLast
  message ++ [nulChar]

/-- Modelled from the spec: the engine's native tagged value (`qjs::JSValue`,
from the generated engine bindings outside `src/`): a tag plus a payload word. -/
structure JSValue where
  tag : Int
  val : Int
deriving DecidableEq, Repr

/-- Modelled from the spec: the engine's exception tag
(`qjs::JS_TAG_EXCEPTION`), the distinguishable marker of the exception
sentinel. -/
def JS_TAG_EXCEPTION : Int := 6

/-- `qjs::JS_MKVAL`. -/
def JS_MKVAL (tag val : Int) : JSValue := ⟨tag, val⟩

/-- Modelled from the spec: the engine's exception sentinel value
(`qjs::JS_EXCEPTION`), meaning "an exception is pending; inspect the
context, not this value". -/
def JS_EXCEPTION : JSValue := JS_MKVAL JS_TAG_EXCEPTION 0

/-- `qjs::JS_VALUE_GET_NORM_TAG`. -/
def JS_VALUE_GET_NORM_TAG (v : JSValue) : Int := v.tag

/-- The per-context state visible to this layer: the pending-panic slot of
the context's opaque side-channel (`self.get_opaque().panic`), holding at
most one panic payload of type `π`.  Engine-internal state (such as the
pending exception value itself) is outside this model. -/
structure Ctx (π : Type) where
  panic : Option π
deriving DecidableEq, Repr

/-- Outcome of running the closure handed to `Ctx::handle_panic`, as
observed by `panic::catch_unwind`: either a returned `JSValue` or a caught
panic payload. -/
inductive CallOutcome (π : Type) where
  | ok (v : JSValue)
  | panicked (payload : π)
deriving DecidableEq, Repr

/-- `Ctx::handle_panic` (the Panic Ferry): on a normal return the value is
passed through; on a panic the payload is stashed in the opaque's panic slot
and `JS_Throw(ctx, JS_MKVAL(JS_TAG_EXCEPTION, 0))` is performed — per the
engine contract the throw operation returns the exception sentinel. -/
def Ctx.handle_panic (ctx : Ctx π) (r : CallOutcome π) : Ctx π × JSValue :=
  match r with
  | .ok x => (ctx, x)
  | .panicked e => (⟨some e⟩, JS_EXCEPTION)

/-- Outcome of `Ctx::handle_exception` / `Ctx::raise_exception`: a
successful value (`Ok(js_val)`), an error (`Err(Error::Exception)`), or
resumption of a stashed panic (`panic::resume_unwind`). -/
inductive Resolved (π : Type) where
  | ok (v : JSValue)
  | err (e : Error)
  | resumePanic (payload : π)
deriving DecidableEq, Repr

/-- `Ctx::handle_exception` (the Resolver): a non-exception-tagged value is
returned unchanged as `Ok`; on the exception sentinel the panic slot is
taken — if a payload was stashed the panic is resumed, otherwise
`Err(Error::Exception)` is returned. -/
def Ctx.handle_exception (ctx : Ctx π) (js_val : JSValue) :
    Ctx π × Resolved π :=
  if JS_VALUE_GET_NORM_TAG js_val ≠ JS_TAG_EXCEPTION then
    (ctx, .ok js_val)
  else
    match ctx.panic with
    | some x => (⟨none⟩, .resumePanic x)
    | none => (ctx, .err .Exception)

/-- `Ctx::raise_exception`: returns `Error::Exception` if there is no
stashed panic, otherwise takes the slot and continues panicking. -/
def Ctx.raise_exception (ctx : Ctx π) : Ctx π × Resolved π :=
  match ctx.panic with
  | some x => (⟨none⟩, .resumePanic x)
  | none => (ctx, .err .Exception)

/-- Behavior of the engine at the two fallible engine calls made by the
generic-error arm of `Error::throw`: the value produced by
`qjs::JS_NewError` and the result of the `obj.set("message", ...)`
property-set. -/
structure EngineOracle where
  newError : JSValue
  setMessage : Except Error Unit
deriving Repr

/-- Result of `Error::throw`: either a returned `JSValue` or a Rust
`panic!` with the given message. -/
inductive ThrowResult where
  | value (v : JSValue)
  | panicked (msg : List Char)
deriving DecidableEq, Repr

/-- The variants handled by the final (generic error object) arm of the
match in `Error::throw`: every variant not given a dedicated engine error
kind. -/
def Error.genericThrowPath : Error → Bool
  | .DuplicateExports | .InvalidCStr _ | .Io _ | .UnrelatedRuntime => true
  | _ => false

/-- `Error::throw` (the Exception Materializer).  The dedicated engine throw
constructors (`JS_ThrowOutOfMemory`, `JS_ThrowTypeError`,
`JS_ThrowReferenceError`, `JS_ThrowInternalError`, `JS_Throw`) mark the
exception pending and return the exception sentinel, per the engine
contract.  In the generic arm, `JS_NewError` and the `message` property-set
are the two fallible engine calls, supplied by the oracle. -/
def Error.throw (e : Error) (eng : EngineOracle) : ThrowResult :=
  match e with
  | .Exception => .value JS_EXCEPTION
  | .Allocation => .value JS_EXCEPTION
  | .InvalidString _ | .Utf8 _ | .FromJs _ _ _ | .IntoJs _ _ _
  | .NumArgs _ _ => .value JS_EXCEPTION
  | .Resolving _ _ _ | .Loading _ _ => .value JS_EXCEPTION
  | .Unknown => .value JS_EXCEPTION
  | _ =>
      if JS_VALUE_GET_NORM_TAG eng.newError = JS_TAG_EXCEPTION then
        .value eng.newError
      else
        match eng.setMessage with
        | .ok _ => .value JS_EXCEPTION
        | .error .Exception => .value JS_EXCEPTION
        | .error err =>
            .panicked ("generated error while throwing error: ".data
              ++ err.format)

/-- A string free of the terminator byte. -/
def StrNulFree (s : String) : Prop := nulChar ∉ s.data

/-- An optional message free of the terminator byte. -/
def OptNulFree : Option String → Prop
  | none => True
  | some message => StrNulFree message

/-- All string payloads of an error are free of the terminator byte. -/
def Error.payloadsNulFree : Error → Prop
  | .InvalidString error => StrNulFree error
  | .InvalidCStr error => StrNulFree error
  | .Utf8 error => StrNulFree error
  | .Io error => StrNulFree error
  | .FromJs from_ to_ message =>
      StrNulFree from_ ∧ StrNulFree to_ ∧ OptNulFree message
  | .IntoJs from_ to_ message =>
      StrNulFree from_ ∧ StrNulFree to_ ∧ OptNulFree message
  | .Resolving base name message =>
      StrNulFree base ∧ StrNulFree name ∧ OptNulFree message
  | .Loading name message => StrNulFree name ∧ OptNulFree message
  | _ => True

/-- For `n` past the digit range, `Nat.digitChar` yields the fallback char. -/
theorem digitChar_big (n : Nat) (h : 16 ≤ n) : Nat.digitChar n = '*' := by
  unfold Nat.digitChar
  repeat rw [if_neg (by omega)]

/-- No digit char is the terminator byte. -/
theorem digitChar_ne_nul (n : Nat) : Nat.digitChar n ≠ nulChar := by
  by_cases h : n < 16
  · exact (by decide : ∀ m ∈ List.range 16, Nat.digitChar m ≠ nulChar) n
      (List.mem_range.mpr h)
  · rw [digitChar_big n (by omega)]
    decide

/-- The digit accumulator of `Nat.repr` never introduces the terminator
byte. -/
theorem toDigitsCore_no_nul : ∀ (fuel n : Nat) (ds : List Char),
    nulChar ∉ ds → nulChar ∉ Nat.toDigitsCore 10 fuel n ds
  | 0, _, ds, h => by
    rw [Nat.toDigitsCore.eq_def]
    exact h
  | fuel + 1, n, ds, h => by
    rw [Nat.toDigitsCore.eq_def]
    dsimp only []
    have hcons : nulChar ∉ Nat.digitChar (n % 10) :: ds := by
      intro hc
      rcases List.mem_cons.mp hc with h1 | h2
      · exact digitChar_ne_nul _ h1.symm
      · exact h h2
    split
    · exact hcons
    · exact toDigitsCore_no_nul fuel (n / 10) _ hcons

/-- The decimal rendering of a `usize` contains no terminator byte. -/
theorem natDisplay_no_nul (n : Nat) : nulChar ∉ natDisplay n := by
  show nulChar ∉ (Nat.toDigits 10 n).asString.data
  rw [Nat.toDigits]
  exact toDigitsCore_no_nul (n + 1) n [] (by simp)

/-- The optional-message suffix contains no terminator byte when the message
itself does not. -/
theorem msgSuffix_no_nul (m : Option String) (h : OptNulFree m) :
    nulChar ∉ msgSuffix m := by
  cases m with
  | none => simp [msgSuffix]
  | some s =>
    simp only [msgSuffix]
    split
    · simp
    · intro hc
      rcases List.mem_append.mp hc with h1 | h2
      · revert h1
        decide
      · exact h h2

/-- Claim C1: a callback panic with payload `p`, intercepted by the Panic
Ferry (`handle_panic`) and then resolved through the Resolver
(`handle_exception`), is resumed at the resolve site with the very same
payload; it is never converted into an `Error` value. -/
theorem panic_ferry_resumes_same_payload {π : Type} (ctx : Ctx π) (p : π) :
    (Ctx.handle_exception (Ctx.handle_panic ctx (.panicked p)).1
        (Ctx.handle_panic ctx (.panicked p)).2).2 = .resumePanic p := by
  simp [Ctx.handle_panic, Ctx.handle_exception, JS_VALUE_GET_NORM_TAG,
    JS_EXCEPTION, JS_MKVAL, JS_TAG_EXCEPTION]

/-- Claim C4: `to_cstring` yields exactly the bytes of `format` followed by
one terminator byte, and that appended terminator is the final byte. -/
theorem to_cstring_eq_format_append_nul (e : Error) :
    e.to_cstring = e.format ++ [nulChar] ∧
      e.to_cstring.getLast? = some nulChar := by
  constructor
  · simp [Error.to_cstring]
  · simp [Error.to_cstring]

/-- Claim C5: materializing `Error::Allocation` through `throw` produces the
engine's exception sentinel, and resolving that value through
`handle_exception` with no pending panic yields `Err(Error::Exception)` —
the OOM identity is not reconstructed. -/
theorem allocation_throw_resolves_to_exception {π : Type} (ctx : Ctx π)
    (eng : EngineOracle) (h : ctx.panic = none) :
    ∃ v, Error.throw .Allocation eng = .value v ∧
      (Ctx.handle_exception ctx v).2 = .err .Exception := by
  refine ⟨JS_EXCEPTION, rfl, ?_⟩
  simp [Ctx.handle_exception, JS_VALUE_GET_NORM_TAG, JS_EXCEPTION, JS_MKVAL,
    JS_TAG_EXCEPTION, h]

/-- Claim C5 witness at a concrete context and engine. -/
theorem allocation_throw_resolves_to_exception_witness :
    ∃ v, Error.throw .Allocation ⟨⟨0, 0⟩, .ok ()⟩ = .value v ∧
      (Ctx.handle_exception (⟨none⟩ : Ctx Unit) v).2 = .err .Exception :=
  @allocation_throw_resolves_to_exception Unit ⟨none⟩ ⟨⟨0, 0⟩, .ok ()⟩ rfl

/-- Claim C6: the first resolution of the sentinel takes the stashed panic
and empties the slot; a second resolution (by `handle_exception` or
`raise_exception`) observes an empty slot and returns
`Err(Error::Exception)` — the slot is consumed exactly once. -/
theorem resolver_consumes_panic_once {π : Type} (ctx : Ctx π) (p : π)
    (h : ctx.panic = some p) :
    (Ctx.handle_exception ctx JS_EXCEPTION).2 = .resumePanic p ∧
    ((Ctx.handle_exception ctx JS_EXCEPTION).1).panic = none ∧
    (Ctx.handle_exception (Ctx.handle_exception ctx JS_EXCEPTION).1
        JS_EXCEPTION).2 = .err .Exception ∧
    (Ctx.raise_exception (Ctx.handle_exception ctx JS_EXCEPTION).1).2
      = .err .Exception := by
  simp [Ctx.handle_exception, Ctx.raise_exception, JS_VALUE_GET_NORM_TAG,
    JS_EXCEPTION, JS_MKVAL, JS_TAG_EXCEPTION, h]

/-- Claim C6 witness at a concrete context holding payload 0. -/
theorem resolver_consumes_panic_once_witness :
    (Ctx.handle_exception (⟨some 0⟩ : Ctx Nat) JS_EXCEPTION).2
        = .resumePanic 0 ∧
    ((Ctx.handle_exception (⟨some 0⟩ : Ctx Nat) JS_EXCEPTION).1).panic
        = none ∧
    (Ctx.handle_exception
        (Ctx.handle_exception (⟨some 0⟩ : Ctx Nat) JS_EXCEPTION).1
        JS_EXCEPTION).2 = .err .Exception ∧
    (Ctx.raise_exception
        (Ctx.handle_exception (⟨some 0⟩ : Ctx Nat) JS_EXCEPTION).1).2
      = .err .Exception :=
  @resolver_consumes_panic_once Nat ⟨some 0⟩ 0 rfl

/-- Claim C10: on a value that is not the exception sentinel,
`handle_exception` returns the value unchanged as `Ok` and leaves the
context — in particular the pending-panic slot — untouched. -/
theorem handle_exception_non_sentinel_preserves_slot {π : Type} (ctx : Ctx π)
    (v : JSValue) (h : JS_VALUE_GET_NORM_TAG v ≠ JS_TAG_EXCEPTION) :
    Ctx.handle_exception ctx v = (ctx, .ok v) := by
  simp [Ctx.handle_exception, h]

/-- Claim C10 witness: a non-sentinel value with a stashed payload present;
the payload survives. -/
theorem handle_exception_non_sentinel_preserves_slot_witness :
    Ctx.handle_exception (⟨some 7⟩ : Ctx Nat) ⟨0, 42⟩
      = (⟨some 7⟩, .ok ⟨0, 42⟩) :=
  @handle_exception_non_sentinel_preserves_slot Nat ⟨some 7⟩ ⟨0, 42⟩
    (by decide)

/-- Claim C2: in the generic-error arm of `Error::throw` — if `JS_NewError`
returns an exception-tagged value it is returned immediately and the
property-set is never attempted (the result is independent of the
property-set behavior); if the property-set fails with `Error::Exception`
the pending-exception sentinel is propagated; if it fails with any other
error the operation panics instead of swallowing the failure. -/
theorem throw_generic_error_path (e : Error) (eng : EngineOracle)
    (h : e.genericThrowPath = true) :
    (JS_VALUE_GET_NORM_TAG eng.newError = JS_TAG_EXCEPTION →
      ∀ r, Error.throw e ⟨eng.newError, r⟩ = .value eng.newError) ∧
    (JS_VALUE_GET_NORM_TAG eng.newError ≠ JS_TAG_EXCEPTION →
      (eng.setMessage = .error .Exception →
        Error.throw e eng = .value JS_EXCEPTION) ∧
      (∀ err, eng.setMessage = .error err → err ≠ .Exception →
        Error.throw e eng = .panicked
          ("generated error while throwing error: ".data ++ err.format))) := by
  cases e <;> simp [Error.genericThrowPath] at h <;>
    exact ⟨fun htag r => by simp [Error.throw, htag],
      fun htag => ⟨fun hset => by simp [Error.throw, htag, hset],
        fun err hset hne => by
          cases err <;> simp [Error.throw, htag, hset] <;>
            exact absurd rfl hne⟩⟩

/-- Claim C2 witness at `DuplicateExports` with a healthy `JS_NewError`
result and an already-pending-exception property-set failure. -/
theorem throw_generic_error_path_witness :
    (JS_VALUE_GET_NORM_TAG (JSValue.mk 0 1) = JS_TAG_EXCEPTION →
      ∀ r, Error.throw .DuplicateExports ⟨⟨0, 1⟩, r⟩ = .value ⟨0, 1⟩) ∧
    (JS_VALUE_GET_NORM_TAG (JSValue.mk 0 1) ≠ JS_TAG_EXCEPTION →
      ((Except.error .Exception : Except Error Unit) = .error .Exception →
        Error.throw .DuplicateExports ⟨⟨0, 1⟩, .error .Exception⟩
          = .value JS_EXCEPTION) ∧
      (∀ err, (Except.error .Exception : Except Error Unit) = .error err →
        err ≠ .Exception →
        Error.throw .DuplicateExports ⟨⟨0, 1⟩, .error .Exception⟩ = .panicked
          ("generated error while throwing error: ".data ++ err.format))) :=
  throw_generic_error_path .DuplicateExports ⟨⟨0, 1⟩, .error .Exception⟩ rfl

/-- Claim C7: `NumArgs{expected: 1..3, given: 5}` renders with the substrings
"5 argument(s)" and "1..3 expected", and whenever `expected.end` equals
`usize::MAX` the upper bound is omitted from the rendering. -/
theorem numArgs_format_rendering :
    ("5 argument(s)".data <:+: Error.format (.NumArgs ⟨1, 3⟩ 5)) ∧
    ("1..3 expected".data <:+: Error.format (.NumArgs ⟨1, 3⟩ 5)) ∧
    (∀ s g, Error.format (.NumArgs ⟨s, usizeMAX⟩ g) =
      "Error calling function with ".data ++ natDisplay g
        ++ " argument(s) while ".data ++ natDisplay s ++ ".. expected".data) ∧
    ("2.. expected".data <:+: Error.format (.NumArgs ⟨2, usizeMAX⟩ 0)) := by
  refine ⟨by decide, by decide, fun s g => ?_, by decide⟩
  simp only [Error.format]
  rw [if_neg (by simp)]
  simp [List.append_assoc]

/-- Claim C8: `is_from_js_to_js` holds exactly on `FromJs` variants whose
`to` label is recognized by `Type::from_str`; in particular it holds for
`FromJs{from:"String", to:"Object"}`, fails for `FromJs{from:"Object",
to:"u32"}`, and fails on every non-`FromJs` variant. -/
theorem is_from_js_to_js_characterization :
    (∀ e : Error, e.is_from_js_to_js = true ↔
      ∃ f t m, e = .FromJs f t m ∧ TypeFromStr t = true) ∧
    Error.is_from_js_to_js (.FromJs "String" "Object" none) = true ∧
    Error.is_from_js_to_js (.FromJs "Object" "u32" none) = false := by
  refine ⟨fun e => ?_, by decide, by decide⟩
  cases e <;> simp [Error.is_from_js_to_js]
  constructor
  · intro h
    exact ⟨_, _, ⟨rfl, rfl⟩, h⟩
  · rintro ⟨f, t, ⟨rfl, rfl⟩, h⟩
    exact h

/-- Claim C9: for every message-bearing variant, `message: Some("")` formats
identically to `message: None`; the ": <message>" suffix is appended exactly
for a non-empty message. -/
theorem message_suffix_suppression :
    (∀ f t, Error.format (.FromJs f t (some ""))
        = Error.format (.FromJs f t none)) ∧
    (∀ f t, Error.format (.IntoJs f t (some ""))
        = Error.format (.IntoJs f t none)) ∧
    (∀ b n, Error.format (.Resolving b n (some ""))
        = Error.format (.Resolving b n none)) ∧
    (∀ n, Error.format (.Loading n (some ""))
        = Error.format (.Loading n none)) ∧
    (∀ f t m, m ≠ "" → Error.format (.FromJs f t (some m))
        = Error.format (.FromJs f t none) ++ ": ".data ++ m.data) := by
  have h0 : ("" : String).isEmpty = true := by decide
  refine ⟨fun f t => ?_, fun f t => ?_, fun b n => ?_, fun n => ?_,
    fun f t m hm => ?_⟩ <;>
    try simp [Error.format, msgSuffix, h0]
  have hm' : m.isEmpty = false := by
    rw [Bool.eq_false_iff]
    simp only [ne_eq, String.isEmpty_iff]
    exact hm
  simp [Error.format, msgSuffix, hm', List.append_assoc]

/-- Claim C9 witness: a concrete non-empty message is appended as a
": <message>" suffix. -/
theorem message_suffix_suppression_witness :
    Error.format (.FromJs "a" "b" (some "x"))
      = Error.format (.FromJs "a" "b" none) ++ ": ".data ++ "x".data :=
  message_suffix_suppression.2.2.2.2 "a" "b" "x" (by decide)

/-- The terminator byte is absent from an append when absent from both
sides. -/
theorem no_nul_append {l1 l2 : List Char} (h1 : nulChar ∉ l1)
    (h2 : nulChar ∉ l2) : nulChar ∉ l1 ++ l2 := by
  intro hc
  rcases List.mem_append.mp hc with hl | hr
  · exact h1 hl
  · exact h2 hr

/-- Claim C3 counterexample: a `FromJs` error whose message payload holds a
terminator byte formats to text containing a terminator byte, refuting the
claim for arbitrary host-string payloads. -/
theorem format_contains_nul_counterexample :
    nulChar ∈ Error.format (.FromJs "a" "b" (some (String.mk [nulChar]))) := by
  decide

/-- Claim C3 (amended): for every error whose string payloads are free of
the terminator byte, the `Display` rendering is non-empty and free of the
terminator byte (determinism holds because the formatter is a pure
function of the error value). -/
theorem format_nonempty_nulfree (e : Error) (h : e.payloadsNulFree) :
    e.format ≠ [] ∧ nulChar ∉ e.format := by
  cases e with
  | Allocation => exact ⟨by decide, by decide⟩
  | DuplicateExports => exact ⟨by decide, by decide⟩
  | Exception => exact ⟨by decide, by decide⟩
  | Unknown => exact ⟨by decide, by decide⟩
  | UnrelatedRuntime => exact ⟨by decide, by decide⟩
  | InvalidString s =>
    exact ⟨List.append_ne_nil_of_left_ne_nil (by decide) _,
      no_nul_append (by decide) h⟩
  | InvalidCStr s =>
    exact ⟨List.append_ne_nil_of_left_ne_nil (by decide) _,
      no_nul_append (by decide) h⟩
  | Utf8 s =>
    exact ⟨List.append_ne_nil_of_left_ne_nil (by decide) _,
      no_nul_append (by decide) h⟩
  | Io s =>
    exact ⟨List.append_ne_nil_of_left_ne_nil (by decide) _,
      no_nul_append (by decide) h⟩
  | FromJs f t m =>
    obtain ⟨hf, ht, hm⟩ := h
    constructor
    · repeat apply List.append_ne_nil_of_left_ne_nil
      decide
    · exact no_nul_append (no_nul_append (no_nul_append (no_nul_append
        (no_nul_append (by decide) hf) (by decide)) ht) (by decide))
        (msgSuffix_no_nul m hm)
  | IntoJs f t m =>
    obtain ⟨hf, ht, hm⟩ := h
    constructor
    · repeat apply List.append_ne_nil_of_left_ne_nil
      decide
    · exact no_nul_append (no_nul_append (no_nul_append (no_nul_append
        (no_nul_append (by decide) hf) (by decide)) ht) (by decide))
        (msgSuffix_no_nul m hm)
  | NumArgs expected given =>
    constructor
    · repeat apply List.append_ne_nil_of_left_ne_nil
      decide
    · refine no_nul_append (no_nul_append (no_nul_append (no_nul_append
        (no_nul_append (no_nul_append (by decide) (natDisplay_no_nul given))
          (by decide)) (natDisplay_no_nul expected.start)) (by decide)) ?_)
        (by decide)
      split
      · exact natDisplay_no_nul expected.stop
      · simp
  | Resolving base name m =>
    obtain ⟨hb, hn, hm⟩ := h
    constructor
    · repeat apply List.append_ne_nil_of_left_ne_nil
      decide
    · exact no_nul_append (no_nul_append (no_nul_append (no_nul_append
        (no_nul_append (by decide) hn) (by decide)) hb) (by decide))
        (msgSuffix_no_nul m hm)
  | Loading name m =>
    obtain ⟨hn, hm⟩ := h
    constructor
    · repeat apply List.append_ne_nil_of_left_ne_nil
      decide
    · exact no_nul_append (no_nul_append (no_nul_append (by decide) hn)
        (by decide)) (msgSuffix_no_nul m hm)

/-- Claim C3 witness at a concrete error with terminator-free payloads. -/
theorem format_nonempty_nulfree_witness :
    Error.format (.FromJs "a" "b" none) ≠ [] ∧
      nulChar ∉ Error.format (.FromJs "a" "b" none) :=
  format_nonempty_nulfree (.FromJs "a" "b" none)
    ⟨(by decide : nulChar ∉ "a".data), (by decide : nulChar ∉ "b".data),
      trivial⟩
